import Mathlib

/-!
Verification of the freederation_icp interface declarations.

The repository consists of three interface-description files for the
`freederation_nostr_backend` canister:
  * `freederation_nostr_backend.did` — Candid service definition,
  * `freederation_nostr_backend.did.d.ts` — TypeScript type bindings,
  * the generated `idlFactory` / `init` module (JavaScript).

We embed each description as Lean data, embed `idlFactory` and `init` as Lean
functions of their IDL argument, and, for the behavioural claims about methods
whose bodies are not part of the repository, model the behaviour from the
specification's words.
-/

namespace FreederationICP

/-- Candid type expressions occurring in the declarations. -/
inductive CandidType : Type
  | text
  | bool
  | record (fields : List (String × CandidType))
deriving Repr

/-- A Candid function type: argument types, result types and annotations
(the only annotation used is "query"). -/
structure CandidFuncType where
  args : List CandidType
  rets : List CandidType
  anns : List String
deriving Repr

/-- A Candid service definition: named methods with their function types. -/
structure ServiceDef where
  methods : List (String × CandidFuncType)
deriving Repr

/-- A Candid interface file: named type definitions plus a service. -/
structure DidFile where
  typeDefs : List (String × CandidType)
  service : ServiceDef
deriving Repr

/-- The record type bound to the name SIGNATURE_INFO on line 1 of
freederation_nostr_backend.did. -/
def didSIGNATURE_INFO : CandidType :=
  .record [("verifying_key", .text), ("signature_str", .text)]

/-- Transcription of freederation_nostr_backend.did: the single type
definition and the service block with its six methods. The reference to the
alias SIGNATURE_INFO in the result of schnorr_signature is resolved to the
record it abbreviates. -/
def didFile : DidFile where
  typeDefs := [("SIGNATURE_INFO", didSIGNATURE_INFO)]
  service := ⟨[
    ("generate_key", ⟨[], [.text], ["query"]⟩),
    ("greet", ⟨[.text], [.text], ["query"]⟩),
    ("rng_seed", ⟨[], [.text], ["query"]⟩),
    ("schnorr_signature", ⟨[.text, .text], [didSIGNATURE_INFO], ["query"]⟩),
    ("update_rng_seed", ⟨[.text], [], []⟩),
    ("validate_schnorr", ⟨[.text, .text, .text], [.bool], ["query"]⟩)]⟩

/-- The interface of the IDL module as used by the generated factory module:
the type constructors Text, Bool, Record and the combinators Func and
Service. `idlFactory` receives a record of this shape as its argument. -/
structure IDLSig where
  Text : CandidType
  Bool : CandidType
  Record : List (String × CandidType) → CandidType
  Func : List CandidType → List CandidType → List String → CandidFuncType
  Service : List (String × CandidFuncType) → ServiceDef

/-- Embedding of the exported idlFactory function of the generated module:
it destructures the IDL record from its argument, builds the SIGNATURE_INFO
record type, and returns the service description, exactly as in the source. -/
def idlFactory (idl : IDLSig) : ServiceDef :=
  let SIGNATURE_INFO := idl.Record
    [("verifying_key", idl.Text), ("signature_str", idl.Text)]
  idl.Service [
    ("generate_key", idl.Func [] [idl.Text] ["query"]),
    ("greet", idl.Func [idl.Text] [idl.Text] ["query"]),
    ("rng_seed", idl.Func [] [idl.Text] ["query"]),
    ("schnorr_signature", idl.Func [idl.Text, idl.Text] [SIGNATURE_INFO] ["query"]),
    ("update_rng_seed", idl.Func [idl.Text] [] []),
    ("validate_schnorr", idl.Func [idl.Text, idl.Text, idl.Text] [idl.Bool] ["query"])]

/-- Embedding of the exported init function of the generated module: it
ignores the IDL record and returns the empty list of installation argument
types. -/
def init (_idl : IDLSig) : List CandidType := []

/-- The standard IDL implementation: each constructor builds the
corresponding piece of Candid abstract syntax. -/
def IDL : IDLSig where
  Text := .text
  Bool := .bool
  Record := .record
  Func := fun args rets anns => ⟨args, rets, anns⟩
  Service := fun ms => ⟨ms⟩

/-- TypeScript type expressions occurring in the .d.ts bindings. -/
inductive TSType : Type
  | string
  | boolean
  | undefined
  | obj (fields : List (String × TSType))
deriving Repr

/-- The shape of an ActorMethod type: argument tuple and result type. -/
structure ActorMethodType where
  args : List TSType
  ret : TSType
deriving Repr

/-- Transcription of the exported SIGNATURE_INFO interface of the .d.ts
file. -/
def tsSIGNATURE_INFO : TSType :=
  .obj [("verifying_key", .string), ("signature_str", .string)]

/-- Transcription of the exported _SERVICE interface of the .d.ts file:
six ActorMethod fields. -/
def ts_SERVICE : List (String × ActorMethodType) := [
  ("generate_key", ⟨[], .string⟩),
  ("greet", ⟨[.string], .string⟩),
  ("rng_seed", ⟨[], .string⟩),
  ("schnorr_signature", ⟨[.string, .string], tsSIGNATURE_INFO⟩),
  ("update_rng_seed", ⟨[.string], .undefined⟩),
  ("validate_schnorr", ⟨[.string, .string, .string], .boolean⟩)]

mutual

/-- Correspondence between a Candid type and its TypeScript binding: text
maps to string, bool to boolean, and a record to an object type with the
same field names and corresponding field types. -/
inductive TSofC : CandidType → TSType → Prop
  | text : TSofC .text .string
  | bool : TSofC .bool .boolean
  | record {fs : List (String × CandidType)} {gs : List (String × TSType)} :
      TSofFields fs gs → TSofC (.record fs) (.obj gs)

/-- Pointwise correspondence of record field lists: same names in the same
order, with corresponding field types. -/
inductive TSofFields : List (String × CandidType) → List (String × TSType) → Prop
  | nil : TSofFields [] []
  | cons {n : String} {c : CandidType} {u : TSType}
      {fs : List (String × CandidType)} {gs : List (String × TSType)} :
      TSofC c u → TSofFields fs gs → TSofFields ((n, c) :: fs) ((n, u) :: gs)

end

/-- Correspondence between a Candid result-type list and the single
TypeScript result type of an ActorMethod: the empty result list maps to
undefined and a one-element list maps to the binding of its element. -/
inductive TSofRet : List CandidType → TSType → Prop
  | empty : TSofRet [] .undefined
  | single {t : CandidType} {u : TSType} : TSofC t u → TSofRet [t] u

/-- A Candid method and a TypeScript ActorMethod agree when their names are
equal, their argument lists correspond pointwise, and their results
correspond. -/
def methodAgrees (c : String × CandidFuncType) (t : String × ActorMethodType) : Prop :=
  c.1 = t.1 ∧ List.Forall₂ TSofC c.2.args t.2.args ∧ TSofRet c.2.rets t.2.ret

/-- The value-level SIGNATURE_INFO record returned by schnorr_signature:
two text fields, as declared by the interface. -/
structure SIGNATURE_INFO where
  verifying_key : String
  signature_str : String
deriving Repr, DecidableEq

namespace Backend

/-- Modelled from the spec: the canister's mutable state behind the Seed
Store. The spec names a process-wide random generator whose seed material is
exposed by rng_seed and replaced by update_rng_seed; no other mutable state
is described, so the state is the seed text alone. -/
structure State where
  seed : String
deriving Repr, DecidableEq

/-- Modelled from the spec: rng_seed "exposes current seed material" — it
reads the stored seed and returns it as text. -/
def rng_seed (st : State) : String := st.seed

/-- Modelled from the spec: update_rng_seed "allows replacing" the seed
material — it stores its text argument as the new seed. -/
def update_rng_seed (s : String) (st : State) : State := { st with seed := s }

/-- Modelled from the spec: greet is a "trivial echo/placeholder" — it
returns its text input echoed back. -/
def greet (name : String) : String := name

/-- Modulus of the cyclic group used by the modelled Schnorr scheme. The
spec leaves the curve and encoding open, so a concrete modular group stands
in for it. -/
def schnorrMod : Nat := 1009

instance : NeZero schnorrMod := ⟨by decide⟩

/-- Generator of the modelled Schnorr group. -/
def gGen : ZMod schnorrMod := 11

/-- Deterministic code of a string, used to derive keys, nonces and hashes
from text inputs. -/
def strCode (s : String) : Nat :=
  s.data.foldl (fun a c => a * 131 + c.toNat) 7

/-- Hash of a group element together with a message, reduced into the
exponent range; the challenge of the modelled Schnorr scheme. -/
def hashRM (r : ZMod schnorrMod) (m : String) : Nat :=
  (r.val * 2654435761 + strCode m) % schnorrMod

/-- Modelled from the spec: the secret key derived from a key identifier
text. The spec only says a key identifier text selects the key, so the key
is derived deterministically from that text. -/
def secretKey (keyId : String) : Nat := strCode keyId % schnorrMod

/-- Deterministic signing nonce. schnorr_signature is declared as a query,
hence side-effect free, so the nonce is derived from the inputs. -/
def nonce (m keyId : String) : Nat :=
  (strCode m * 37 + strCode keyId) % schnorrMod + 1

/-- Decimal encoding of a natural number as text (most significant digit
first). -/
def encNat (n : Nat) : String :=
  ⟨((Nat.digits 10 n).reverse.map fun d => Char.ofNat (48 + d))⟩

/-- Decimal decoding of text back to a natural number; inverse of encNat on
its image. -/
def decNat (s : String) : Nat :=
  Nat.ofDigits 10 (s.data.reverse.map fun c => c.toNat - 48)

/-- Modelled from the spec: schnorr_signature — "given a message and a key
identifier (both as text), produces a signature and the verifying key used".
The modelled scheme is classic Schnorr over the group generated by gGen:
commitment R = g^k, challenge e = H(R, m), response s = k + x·e; the
verifying key is g^x. The signature text encodes the pair (R, s) and the
verifying-key text encodes g^x, both in decimal. -/
def schnorr_signature (msg keyId : String) : SIGNATURE_INFO :=
  let x := secretKey keyId
  let k := nonce msg keyId
  let vk := gGen ^ x
  let R := gGen ^ k
  let e := hashRM R msg
  let s := k + x * e
  { verifying_key := encNat vk.val
    signature_str := encNat (R.val + schnorrMod * s) }

/-- Modelled from the spec: validate_schnorr — "given a message, a
signature, and a key, returns whether it validates". It decodes the pair
(R, s) and the verifying key and checks the Schnorr verification equation
g^s = R · vk^H(R, m). -/
def validate_schnorr (msg sigStr vkStr : String) : Bool :=
  let n := decNat sigStr
  let R : ZMod schnorrMod := ((n % schnorrMod : Nat) : ZMod schnorrMod)
  let s := n / schnorrMod
  let vk : ZMod schnorrMod := ((decNat vkStr : Nat) : ZMod schnorrMod)
  let e := hashRM R msg
  decide (gGen ^ s = R * vk ^ e)

/-- Modelled from the spec: generate_key "produces a verifying key on
demand", derived from the current seed material. -/
def generate_key (st : State) : String :=
  encNat (gGen ^ secretKey st.seed).val

end Backend

/-- decNat is a left inverse of encNat: decoding the decimal encoding of a
natural number recovers it. -/
theorem decNat_encNat (n : Nat) : Backend.decNat (Backend.encNat n) = n := by
  unfold Backend.decNat Backend.encNat
  show Nat.ofDigits 10
      ((((Nat.digits 10 n).reverse.map fun d => Char.ofNat (48 + d)).reverse.map
        fun c => c.toNat - 48)) = n
  simp only [List.map_reverse, List.reverse_reverse, List.map_map]
  have h : ∀ d ∈ Nat.digits 10 n,
      ((fun c : Char => c.toNat - 48) ∘ fun d => Char.ofNat (48 + d)) d = id d := by
    intro d hd
    have hd10 : d < 10 := Nat.digits_lt_base (by norm_num) hd
    interval_cases d <;> rfl
  rw [List.map_congr_left h, List.map_id, Nat.ofDigits_digits]

/-- Claim C1: the declared service exposes exactly six remote methods, named
generate_key, greet, rng_seed, schnorr_signature, update_rng_seed and
validate_schnorr, and exactly one composite record type, SIGNATURE_INFO,
with no other methods or composite types declared. -/
theorem c1_service_surface :
    didFile.service.methods.map Prod.fst =
      ["generate_key", "greet", "rng_seed", "schnorr_signature",
        "update_rng_seed", "validate_schnorr"] ∧
    didFile.typeDefs.map Prod.fst = ["SIGNATURE_INFO"] ∧
    ∃ fs, didFile.typeDefs = [("SIGNATURE_INFO", CandidType.record fs)] :=
  ⟨rfl, rfl, _, rfl⟩

/-- Claim C2: each method's argument and result shapes match the interface
table — generate_key : () → text, greet : text → text, rng_seed : () → text,
schnorr_signature : (text, text) → SIGNATURE_INFO with both fields text,
update_rng_seed : text → (), validate_schnorr : (text, text, text) → bool. -/
theorem c2_method_shapes :
    ((didFile.service.methods.lookup "generate_key").map fun f => (f.args, f.rets)) =
      some ([], [CandidType.text]) ∧
    ((didFile.service.methods.lookup "greet").map fun f => (f.args, f.rets)) =
      some ([CandidType.text], [CandidType.text]) ∧
    ((didFile.service.methods.lookup "rng_seed").map fun f => (f.args, f.rets)) =
      some ([], [CandidType.text]) ∧
    ((didFile.service.methods.lookup "schnorr_signature").map fun f => (f.args, f.rets)) =
      some ([CandidType.text, CandidType.text],
        [CandidType.record [("verifying_key", CandidType.text),
          ("signature_str", CandidType.text)]]) ∧
    ((didFile.service.methods.lookup "update_rng_seed").map fun f => (f.args, f.rets)) =
      some ([CandidType.text], []) ∧
    ((didFile.service.methods.lookup "validate_schnorr").map fun f => (f.args, f.rets)) =
      some ([CandidType.text, CandidType.text, CandidType.text], [CandidType.bool]) :=
  ⟨rfl, rfl, rfl, rfl, rfl, rfl⟩

/-- Claim C3: exactly five methods — generate_key, greet, rng_seed,
schnorr_signature and validate_schnorr — carry the query annotation, and
update_rng_seed is the sole method without it. -/
theorem c3_query_annotations :
    ((didFile.service.methods.filter fun m => m.2.anns.contains "query").map Prod.fst) =
      ["generate_key", "greet", "rng_seed", "schnorr_signature", "validate_schnorr"] ∧
    ((didFile.service.methods.filter fun m => ! m.2.anns.contains "query").map Prod.fst) =
      ["update_rng_seed"] :=
  ⟨rfl, rfl⟩

/-- Claim C4: SIGNATURE_INFO is a record with exactly the two text fields
verifying_key and signature_str, in the .did type definition, in the record
built by idlFactory, and in the TypeScript bindings. -/
theorem c4_signature_info_shape :
    didFile.typeDefs = [("SIGNATURE_INFO", CandidType.record
      [("verifying_key", CandidType.text), ("signature_str", CandidType.text)])] ∧
    (((idlFactory IDL).methods.lookup "schnorr_signature").map CandidFuncType.rets) =
      some [CandidType.record
        [("verifying_key", CandidType.text), ("signature_str", CandidType.text)]] ∧
    tsSIGNATURE_INFO = TSType.obj
      [("verifying_key", TSType.string), ("signature_str", TSType.string)] :=
  ⟨rfl, rfl, rfl⟩

/-- Claim C5: for every message and key identifier, the signature produced by
schnorr_signature validates under the verifying key it returns:
validate_schnorr m r.signature_str r.verifying_key is true for the record r
returned by schnorr_signature m k. -/
theorem c5_sign_validate_roundtrip (m k : String) :
    Backend.validate_schnorr m (Backend.schnorr_signature m k).signature_str
      (Backend.schnorr_signature m k).verifying_key = true := by
  simp only [Backend.schnorr_signature, Backend.validate_schnorr, decNat_encNat,
    decide_eq_true_eq]
  rw [Nat.add_mul_mod_self_left, Nat.mod_eq_of_lt (ZMod.val_lt _),
    Nat.add_mul_div_left _ _ (by decide : 0 < Backend.schnorrMod),
    Nat.div_eq_of_lt (ZMod.val_lt _), Nat.zero_add,
    ZMod.natCast_zmod_val, ZMod.natCast_zmod_val, pow_add, pow_mul]

/-- Claim C6: after update_rng_seed s, a subsequent rng_seed call returns s,
for every seed text s and every prior state. -/
theorem c6_seed_get_after_set (s : String) (st : Backend.State) :
    Backend.rng_seed (Backend.update_rng_seed s st) = s := rfl

/-- Claim C7: greet echoes its text input back unchanged. -/
theorem c7_greet_echo (s : String) : Backend.greet s = s := rfl

/-- Claim C8: the three interface descriptions agree — the service built by
idlFactory equals the Candid service definition (methods, types and query
annotations), the TypeScript _SERVICE methods correspond one-to-one to the
Candid methods in name, argument types and result type, and the TypeScript
SIGNATURE_INFO interface corresponds to the Candid record. -/
theorem c8_declarations_agree :
    idlFactory IDL = didFile.service ∧
    List.Forall₂ methodAgrees didFile.service.methods ts_SERVICE ∧
    TSofC didSIGNATURE_INFO tsSIGNATURE_INFO := by
  refine ⟨rfl, ?_, ?_⟩ <;> repeat constructor

/-- Claim C9: the service declares no installation arguments — init returns
the empty list of argument types for every IDL argument. -/
theorem c9_no_init_args (idl : IDLSig) : init idl = [] := rfl

/-- Claim C10: idlFactory is deterministic — any two calls with the same IDL
argument return identical service descriptions; as a pure function of its
argument it reads no other state. -/
theorem c10_idl_factory_deterministic (a b : IDLSig) (h : a = b) :
    idlFactory a = idlFactory b := by rw [h]

/-- Witness: claim C10 instantiated at the standard IDL implementation. -/
theorem c10_idl_factory_deterministic_witness :
    idlFactory IDL = idlFactory IDL :=
  c10_idl_factory_deterministic IDL IDL rfl

end FreederationICP
